import Mathlib

/-!
Verification of the browser-side authentication orchestration layer
(`src/dashbored/src/lib/api.js`, the OTP / forgot-password modal controllers
and the auth modal orchestration) against its natural-language specification.

The JavaScript/TypeScript code is shallowly embedded: JavaScript runtime
values are the inductive `JSVal`; truthiness, property access, `&&`/`||`,
object spread and string coercion follow the ECMAScript semantics the code
relies on.  React `setState` calls are modelled as immediate sequential
assignment (explicit state passing); each `async` handler is modelled as a
pure function from the pre-state and the awaited network outcome to the
post-state and the externally observable effects (network calls issued,
callbacks invoked, toasts shown, timers armed or cleared).
-/

/-- A JavaScript runtime value, restricted to the shapes that flow through
this code base: `undefined`, `null`, booleans, integers, strings and plain
objects (a list of key/value fields, keys unique). -/
inductive JSVal where
  | vundefined : JSVal
  | vnull : JSVal
  | vbool : Bool → JSVal
  | vnum : Int → JSVal
  | vstr : String → JSVal
  | vobj : List (String × JSVal) → JSVal
deriving Repr

namespace JSVal

/-- ECMAScript ToBoolean: `undefined`, `null`, `false`, `0` and `""` are
falsy; every other value (objects in particular) is truthy. -/
def truthy : JSVal → Bool
  | .vundefined => false
  | .vnull => false
  | .vbool b => b
  | .vnum n => n != 0
  | .vstr s => s != ""
  | .vobj _ => true

/-- Property read `v.k` in the cases where it cannot throw: an object yields
the field's value (or `undefined` when absent); primitives other than
`null`/`undefined` yield `undefined` in this code base (none of the accessed
names is a primitive prototype member).  `null`/`undefined` receivers are
handled separately by `member`. -/
def getField : JSVal → String → JSVal
  | .vobj fs, k => (fs.lookup k).getD .vundefined
  | _, _ => .vundefined

/-- Property read `v.k` with full JavaScript semantics: reading a property of
`null` or `undefined` throws a `TypeError` (returned as `.error` with the
engine's message). -/
def member : JSVal → String → Except String JSVal
  | .vundefined, k => .error ("Cannot read properties of undefined (reading '" ++ k ++ "')")
  | .vnull, k => .error ("Cannot read properties of null (reading '" ++ k ++ "')")
  | v, k => .ok (v.getField k)

/-- JavaScript `a || b`. -/
def jsOr (a b : JSVal) : JSVal := if a.truthy then a else b

/-- JavaScript `a && b`. -/
def jsAnd (a b : JSVal) : JSVal := if a.truthy then b else a

/-- ECMAScript ToString as it applies to the values above
(`String(v)`, also the coercion `new Error(message)` performs). -/
def jsToString : JSVal → String
  | .vundefined => "undefined"
  | .vnull => "null"
  | .vbool b => if b then "true" else "false"
  | .vnum n => toString n
  | .vstr s => s
  | .vobj _ => "[object Object]"

end JSVal

/-- JavaScript `String.prototype.includes`: `hay.includes(needle)` is true
iff `needle` occurs contiguously in `hay`. -/
def strIncludes (hay needle : String) : Bool :=
  hay.toList.tails.any (fun t => needle.toList.isPrefixOf t)

/-- JavaScript object-literal update `obj[k] = v` / key collision during
spread: an existing key keeps its position and takes the new value, a fresh
key is appended. -/
def objSet (fs : List (String × String)) (k v : String) : List (String × String) :=
  if fs.any (fun p => p.1 == k) then
    fs.map (fun p => if p.1 == k then (k, v) else p)
  else fs ++ [(k, v)]

/-- JavaScript object spread `{...base, ...extra}` on string-valued
records. -/
def objSpread (base extra : List (String × String)) : List (String × String) :=
  extra.foldl (fun acc p => objSet acc p.1 p.2) base

/-- Key lookup in a header record. -/
def headerLookup (fs : List (String × String)) (k : String) : Option String :=
  (fs.find? (fun p => p.1 == k)).map (fun p => p.2)

/-! ## Transport Client (`src/dashbored/src/lib/api.js`, `apiRequest`) -/

/-- The caller-supplied `options` object of `apiRequest`: each field is
`none` when the corresponding key is absent from the object literal (so that
`...options` spreads nothing for it). -/
structure RequestOptions where
  method : Option String := none
  headers : Option (List (String × String)) := none
  body : Option String := none
deriving Repr, DecidableEq

/-- The request configuration `apiRequest` hands to `fetch`. -/
structure RequestConfig where
  method : String
  headers : List (String × String)
  mode : String
  credentials : String
  body : Option String
deriving Repr, DecidableEq

/-- The Session Store slot: `localStorage.getItem('auth_token')` returns the
stored string or `null` (`none`). -/
abbrev TokenSlot := Option String

/-- Lines 16–32 of `api.js`:
`config = { method:'POST', headers:{CT, Accept, ...options.headers},
mode:'cors', credentials:'include', ...options }` followed by
`if (token) config.headers.Authorization = 'Bearer ' + token`.
Note the trailing `...options` spread: when the caller supplies a `headers`
key it overwrites the merged headers object wholesale. -/
def buildConfig (options : RequestOptions) (token : TokenSlot) : RequestConfig :=
  let merged := objSpread
    [("Content-Type", "application/json"), ("Accept", "application/json")]
    (options.headers.getD [])
  let headers0 :=
    match options.headers with
    | some hs => hs
    | none => merged
  let headers :=
    match token with
    | some t => if t == "" then headers0 else objSet headers0 "Authorization" ("Bearer " ++ t)
    | none => headers0
  { method := options.method.getD "POST"
    headers := headers
    mode := "cors"
    credentials := "include"
    body := options.body }

/-- The body `apiRequest` extracted from the response (lines 36–42):
`response.json()` succeeded (`jsonBody`) or parsing failed and the body was
taken as raw text (`textBody`). -/
inductive FetchBody where
  | jsonBody : JSVal → FetchBody
  | textBody : String → FetchBody
deriving Repr

/-- The outcome of the underlying `fetch`: a response with an HTTP status and
a body, or a rejection (network failure) with the underlying error's
message. -/
inductive FetchResult where
  | response : Nat → FetchBody → FetchResult
  | networkFailure : String → FetchResult
deriving Repr

/-- The value bound to `data` after the parse-or-text fallback. -/
def respData : FetchBody → JSVal
  | .jsonBody v => v
  | .textBody s => .vstr s

/-- JavaScript `response.ok`: HTTP status in the inclusive range 200–299. -/
def okStatus (status : Nat) : Bool := 200 ≤ status && status ≤ 299

/-- The `APIError` shape (`message` already coerced to a string by the
`Error` constructor, `status`, opaque `details`). -/
structure APIError where
  message : String
  status : Nat
  details : JSVal
deriving Repr

/-- What `apiRequest` delivers to its caller: the parsed body on success, or
a thrown `APIError`. -/
inductive APIOutcome where
  | success : JSVal → APIOutcome
  | failure : APIError → APIOutcome
deriving Repr

/-- Lines 34–68 of `api.js`.  For a non-2xx response the `APIError`
constructor arguments are evaluated left to right:
`(data && data.error) || (typeof data === 'string' ? data : 'Request failed')`
cannot throw (the `&&` guards the `.error` read), but the third argument
`data.details || data` reads `.details` unguarded and therefore throws a
`TypeError` when `data` is `null`; the outer `catch` converts any non-
`APIError` exception into `APIError('Network error', 0, error.message)`. -/
def apiRequest (_token : TokenSlot) (res : FetchResult) : APIOutcome :=
  match res with
  | .networkFailure desc => .failure ⟨"Network error", 0, .vstr desc⟩
  | .response status body =>
    let data := respData body
    if okStatus status then .success data
    else
      let msg := JSVal.jsOr (JSVal.jsAnd data (data.getField "error"))
        (match data with
         | .vstr s => .vstr s
         | _ => .vstr "Request failed")
      match data.member "details" with
      | .error tyMsg => .failure ⟨"Network error", 0, .vstr tyMsg⟩
      | .ok det => .failure ⟨msg.jsToString, status, JSVal.jsOr det data⟩

/-! ## Credential Operations (`authAPI` / `userAPI`) -/

/-- A request as built by a Credential Operation: the endpoint appended to
the base URL, plus the `fetch` configuration. -/
structure BuiltRequest where
  endpoint : String
  config : RequestConfig
deriving Repr, DecidableEq

/-- Function `userAPI.getProfile`: `apiRequest('/users/me')` with no options. -/
def getProfileRequest (token : TokenSlot) : BuiltRequest :=
  { endpoint := "/users/me", config := buildConfig {} token }

/-- Function `userAPI.updateProfile`: `apiRequest('/users/me', {method:'PUT', body})`. -/
def updateProfileRequest (body : String) (token : TokenSlot) : BuiltRequest :=
  { endpoint := "/users/me"
    config := buildConfig { method := some "PUT", body := some body } token }

/-! ## Verification Flow Controller
(`src/dashbored/src/components/auth/OTPVerificationModal.tsx`) -/

/-- The component state of `OTPVerificationModal` relevant to verification
and resend, together with the timer bookkeeping: `countdownArmed` is
`countdownRef.current !== null`, and `liveIntervals` counts intervals created
by `setInterval` and not yet cancelled by `clearInterval` (environment-side
bookkeeping used to state the at-most-one-timer property). -/
structure OTPState where
  otp : String
  isLoading : Bool
  isResending : Bool
  timeLeft : Nat
  countdownArmed : Bool
  liveIntervals : Nat
deriving Repr, DecidableEq

/-- The state of a freshly mounted `OTPVerificationModal`. -/
def initialOTPState : OTPState :=
  { otp := "", isLoading := false, isResending := false, timeLeft := 0
    countdownArmed := false, liveIntervals := 0 }

/-- Observable effects of one `handleVerify` run. -/
structure VerifyEffects where
  networkCalled : Bool
  successCallback : Bool
  modalClosed : Bool
  errorToast : Option String
deriving Repr, DecidableEq

/-- Lines 48–101 (`handleVerify`): reject a code that is not exactly six
digits without any network call; otherwise call `verifyEmail` and treat the
response as a success exactly when its `success` or `message` field is
truthy (optional chaining, so a primitive body is simply a failure); on the
failure paths derive the toast message from `error.response?.data?.error`
(always `undefined` for the errors that can arise here), then
`error.message`, then the generic fallback. -/
def handleVerify (s : OTPState) (resp : APIOutcome) : OTPState × VerifyEffects :=
  if !(s.otp.length == 6 && s.otp.toList.all Char.isDigit) then
    (s, { networkCalled := false, successCallback := false, modalClosed := false
          errorToast := some "Please enter a valid 6-digit code." })
  else
    match resp with
    | .success data =>
      if (data.getField "success").truthy || (data.getField "message").truthy then
        ({ s with isLoading := false },
         { networkCalled := true, successCallback := true, modalClosed := true
           errorToast := none })
      else
        ({ s with isLoading := false },
         { networkCalled := true, successCallback := false, modalClosed := false
           errorToast := some "Verification failed. Please try again." })
    | .failure e =>
      ({ s with isLoading := false },
       { networkCalled := true, successCallback := false, modalClosed := false
         errorToast := some (if e.message != "" then e.message
           else "Invalid or expired OTP code. Please try again.") })

/-- Observable effects of one `handleResendOTP` run. -/
structure ResendEffects where
  networkCalled : Bool
  successToast : Bool
  errorToast : Option String
deriving Repr, DecidableEq

/-- Lines 103–156 (`handleResendOTP`): bail out immediately (no network
call) while a resend is in flight or the countdown is positive; otherwise
call `resendOtp`; on a body with a truthy `success` or `message` field,
clear any existing interval, set `timeLeft` to 60 and arm a fresh interval;
otherwise surface an error.  `setIsResending(true)` followed by the
`finally` `setIsResending(false)` leaves `isResending` false after the
run. -/
def handleResendOTP (s : OTPState) (resp : APIOutcome) : OTPState × ResendEffects :=
  if s.isResending || s.timeLeft > 0 then
    (s, { networkCalled := false, successToast := false, errorToast := none })
  else
    match resp with
    | .success data =>
      if (data.getField "success").truthy || (data.getField "message").truthy then
        let cleared :=
          if s.countdownArmed then
            { s with countdownArmed := false, liveIntervals := s.liveIntervals - 1 }
          else s
        ({ cleared with
            isResending := false, timeLeft := 60, countdownArmed := true,
            liveIntervals := cleared.liveIntervals + 1 },
         { networkCalled := true, successToast := true, errorToast := none })
      else
        ({ s with isResending := false },
         { networkCalled := true, successToast := false
           errorToast := some "Failed to resend OTP" })
    | .failure e =>
      ({ s with isResending := false },
       { networkCalled := true, successToast := false
         errorToast := some (if e.message != "" then e.message
           else "Failed to resend verification code. Please try again.") })

/-- Lines 123–134: one firing of the armed interval.  The updater
`prev <= 1 ? (clearInterval; 0) : prev - 1` clears the interval (and the
ref) on the transition to 0. -/
def countdownTick (s : OTPState) : OTPState :=
  if s.timeLeft ≤ 1 then
    if s.countdownArmed then
      { s with
        timeLeft := 0, countdownArmed := false,
        liveIntervals := s.liveIntervals - 1 }
    else { s with timeLeft := 0 }
  else { s with timeLeft := s.timeLeft - 1 }

/-- JavaScript `.replace(/\D/g, '')`: delete every non-digit character, keeping the
rest in order (regex global replace scans left to right). -/
def replaceNonDigits : List Char → List Char
  | [] => []
  | c :: cs => if c.isDigit then c :: replaceNonDigits cs else replaceNonDigits cs

/-- JavaScript `.slice(0, 6)` on a string. -/
def slice6 (s : String) : String := String.mk (s.toList.take 6)

/-- Lines 158–166 (`handleOtpChange`): given the input element's full value,
keep only digits, truncate to six, store the result, and auto-submit
(invoke `handleVerify`) exactly when the stored value has six digits.
Returns the new `otp` and the number of verification attempts triggered. -/
def handleOtpChange (targetValue : String) : String × Nat :=
  let value := slice6 (String.mk (replaceNonDigits targetValue.toList))
  (value, if value.length == 6 then 1 else 0)

/-- Lines 169–179 (`handlePaste`): same digit filter and truncation applied
to the clipboard text, but guarded by `if (pastedData)` — an empty filtered
string leaves the current `otp` untouched and triggers nothing. -/
def handlePaste (clip : String) (otp : String) : String × Nat :=
  let pastedData := slice6 (String.mk (replaceNonDigits clip.toList))
  if pastedData != "" then
    (pastedData, if pastedData.length == 6 then 1 else 0)
  else (otp, 0)

/-- A single keystroke appending character `c` to the field.  The input
element carries `maxLength={6}` (line 217), so the browser rejects the
insertion outright when the value already has six characters: the value is
unchanged and no change event reaches `handleOtpChange`. -/
def typeChar (otp : String) (c : Char) : String × Nat :=
  if otp.length ≥ 6 then (otp, 0)
  else handleOtpChange (otp.push c)

/-! ## Login/Register Orchestration (`AuthModal`, `src/unnamed/part_000`) -/

/-- An exception caught by a handler's `catch` block: either a thrown
`APIError`, or a plain `Error`/`TypeError` carrying only `name` and
`message` (its `details` and `response` properties read as `undefined`). -/
inductive JSError where
  | apiError : APIError → JSError
  | jsError : (name : String) → (message : String) → JSError
deriving Repr

/-- Property `error.message` (always a string: the `Error` constructor coerces). -/
def JSError.msg : JSError → String
  | .apiError e => e.message
  | .jsError _ m => m

/-- Property `error.name`: `APIError extends Error` never assigns `this.name`, so an
`APIError`'s name is the inherited `"Error"`. -/
def JSError.errName : JSError → String
  | .apiError _ => "Error"
  | .jsError n _ => n

/-- Property `error.details`: a plain `Error` has no such property (`undefined`). -/
def JSError.details : JSError → JSVal
  | .apiError e => e.details
  | .jsError _ _ => .vundefined

/-- Expression `error.details?.includes('not verified')` (line 72 of the auth modal):
optional chaining yields `undefined` (falsy) when `details` is nullish; a
string receiver calls `String.prototype.includes`; any other receiver makes
`details?.includes` `undefined` and the call throws a `TypeError`. -/
def detailsIncludesNotVerified (d : JSVal) : Except String Bool :=
  match d with
  | .vnull => .ok false
  | .vundefined => .ok false
  | .vstr s => .ok (strIncludes s "not verified")
  | _ => .error "error.details?.includes is not a function"

/-- JavaScript destructuring `const { token, ...user } = response`: throws a
`TypeError` when `response` is `null` or `undefined`; otherwise binds
`token` to the property read (`undefined` on primitives and on objects
lacking the key). -/
def destructureToken : JSVal → Except String JSVal
  | .vnull => .error "Cannot destructure property 'token' of 'response' as it is null."
  | .vundefined => .error "Cannot destructure property 'token' of 'response' as it is undefined."
  | v => .ok (v.getField "token")

/-- Observable outcome of one `handleLogin` run. -/
structure LoginResult where
  tokenStored : Option String
  loginSuccessCalled : Bool
  welcomeToast : Bool
  modalClosed : Bool
  otpOpened : Bool
  pendingEmail : Option String
  failToast : Option String
  uncaught : Option String
deriving Repr, DecidableEq

/-- A `LoginResult` in which nothing has happened yet. -/
def LoginResult.noEffects : LoginResult :=
  { tokenStored := none, loginSuccessCalled := false, welcomeToast := false
    modalClosed := false, otpOpened := false, pendingEmail := none
    failToast := none, uncaught := none }

/-- Lines 69–86 of the auth modal (`handleLogin`'s `catch`): an unverified-
email marker in `message` or `details` routes to the OTP flow with the
submitted email; otherwise a "Sign in failed" toast shows
`error.message || fallback`.  When `details` is a non-string, non-nullish
value the `includes` call itself throws and the exception escapes the
handler (`uncaught`). -/
def loginCatch (email : String) (err : JSError) : LoginResult :=
  if strIncludes err.msg "Email not verified" then
    { LoginResult.noEffects with otpOpened := true, pendingEmail := some email }
  else
    match detailsIncludesNotVerified err.details with
    | .error m => { LoginResult.noEffects with uncaught := some m }
    | .ok true =>
      { LoginResult.noEffects with otpOpened := true, pendingEmail := some email }
    | .ok false =>
      { LoginResult.noEffects with
        failToast := some (if err.msg != "" then err.msg
          else "Please check your credentials and try again.") }

/-- Lines 42–87 of the auth modal (`handleLogin`): on a resolved response,
split the token off the body (`const { token, ...user } = response`); a
falsy token is converted into `Error('No authentication token received')`
and handled by the `catch`; a truthy token is stored in the Session Store,
`onLoginSuccess` fires and the modal closes. -/
def handleLogin (email : String) (resp : APIOutcome) : LoginResult :=
  match resp with
  | .success response =>
    match destructureToken response with
    | .error m => loginCatch email (.jsError "TypeError" m)
    | .ok token =>
      if token.truthy then
        { LoginResult.noEffects with
          tokenStored := some token.jsToString
          loginSuccessCalled := true, welcomeToast := true, modalClosed := true }
      else loginCatch email (.jsError "Error" "No authentication token received")
  | .failure e => loginCatch email (.apiError e)

/-- Observable outcome of one `handleRegister` run. -/
structure RegisterResult where
  tokenStored : Option String
  loginSuccessCalled : Bool
  accountCreatedToast : Bool
  welcomeToast : Bool
  modalClosed : Bool
  otpOpened : Bool
  pendingEmail : Option String
  failToast : Option String
deriving Repr, DecidableEq

/-- A `RegisterResult` in which nothing has happened yet. -/
def RegisterResult.noEffects : RegisterResult :=
  { tokenStored := none, loginSuccessCalled := false, accountCreatedToast := false
    welcomeToast := false, modalClosed := false, otpOpened := false
    pendingEmail := none, failToast := none }

/-- Lines 131–167 of the auth modal (`handleRegister`'s `catch`): the
error-message priority chain — "already exists" detection, network-failure
detection (`message` containing "network" or a `TypeError`), flattened
validation `details`, `error.response?.data` (always `undefined` here),
`error.message`, final fallback. -/
def registerCatch (err : JSError) : RegisterResult :=
  let message :=
    if strIncludes err.msg "already exists" then
      "An account with this email already exists. Please sign in or use a different email."
    else if strIncludes err.msg "network" || err.errName == "TypeError" then
      "Unable to connect to the server. Please check your internet connection and ensure the backend is running."
    else if err.details.truthy then
      let errors :=
        match err.details with
        | .vobj fs => String.intercalate " " (fs.map (fun p => p.2.jsToString))
        | d => d.jsToString
      if errors != "" then errors else err.msg
    else if err.msg != "" then err.msg
    else "Please check your information and try again."
  { RegisterResult.noEffects with failToast := some message }

/-- Lines 89–168 of the auth modal (`handleRegister`): a truthy
`needsVerification` field routes to the OTP flow with the submitted email
(checked before the token, so no token is ever stored on this path);
otherwise a truthy `token` field is stored and treated as a login; otherwise
`Error('Unexpected response from server')` goes to the `catch`. -/
def handleRegister (email : String) (resp : APIOutcome) : RegisterResult :=
  match resp with
  | .success response =>
    if (response.getField "needsVerification").truthy then
      { RegisterResult.noEffects with
        otpOpened := true, pendingEmail := some email, accountCreatedToast := true }
    else if (response.getField "token").truthy then
      { RegisterResult.noEffects with
        tokenStored := some (response.getField "token").jsToString
        loginSuccessCalled := true, welcomeToast := true, modalClosed := true }
    else registerCatch (.jsError "Error" "Unexpected response from server")
  | .failure e => registerCatch (.apiError e)

/-! ## Recovery Flow Controller
(`src/dashbored/src/components/auth/ForgotPasswordModal.tsx`) -/

/-- The component state of `ForgotPasswordModal`. -/
structure RecoveryState where
  email : String
  isLoading : Bool
  isSuccess : Bool
deriving Repr, DecidableEq

/-- The state of a freshly mounted `ForgotPasswordModal`. -/
def initialRecoveryState : RecoveryState :=
  { email := "", isLoading := false, isSuccess := false }

/-- Lines 22–42 (`handleSubmit`): a resolved `forgotPassword` call sets
`isSuccess`; a rejection surfaces `error.message || fallback`. -/
def recoveryHandleSubmit (s : RecoveryState) (resp : APIOutcome) :
    RecoveryState × Option String :=
  match resp with
  | .success _ => ({ s with isLoading := false, isSuccess := true }, none)
  | .failure e =>
    ({ s with isLoading := false },
     some (if e.message != "" then e.message
       else "Please check your email address and try again."))

/-- Lines 44–48 (`handleClose`): clear the email, drop the success flag,
then invoke `onClose`.  Returns the reset state and whether `onClose` was
invoked. -/
def recoveryHandleClose (s : RecoveryState) : RecoveryState × Bool :=
  ({ s with email := "", isSuccess := false }, true)

/-- Line 87 ("Send to different email"): `onClick={() => setIsSuccess(false)}`
— only the success flag is dropped; the email field is left as it was. -/
def recoverySendToDifferentEmail (s : RecoveryState) : RecoveryState :=
  { s with isSuccess := false }

/-! ## Helper lemmas -/

/-- The global regex replace deletes exactly the non-digit characters. -/
theorem replaceNonDigits_eq_filter (l : List Char) :
    replaceNonDigits l = l.filter Char.isDigit := by
  induction l with
  | nil => rfl
  | cons c cs ih =>
    by_cases h : c.isDigit <;> simp [replaceNonDigits, List.filter, h, ih]

theorem headerLookup_objSet_self (fs : List (String × String)) (k v : String) :
    headerLookup (objSet fs k v) k = some v := by
  unfold objSet
  by_cases h : fs.any (fun p => p.1 == k)
  · simp only [h, if_true]
    induction fs with
    | nil => simp at h
    | cons p ps ih =>
      by_cases hp : p.1 == k
      · simp [headerLookup, List.find?, hp]
      · simp only [List.any_cons, hp, Bool.false_or] at h
        simpa [headerLookup, List.find?, hp] using ih h
  · simp only [h, if_false]
    induction fs with
    | nil => simp [headerLookup]
    | cons p ps ih =>
      simp only [List.any_cons, Bool.or_eq_true, not_or] at h
      simpa [headerLookup, List.find?, h.1] using ih (by simpa using h.2)

theorem headerLookup_cons (p : String × String) (ps : List (String × String))
    (k' : String) :
    headerLookup (p :: ps) k' = if p.1 == k' then some p.2 else headerLookup ps k' := by
  by_cases h : (p.1 == k') = true <;> simp [headerLookup, List.find?, h]

theorem headerLookup_nil (k : String) : headerLookup [] k = none := rfl

theorem headerLookup_map_set (fs : List (String × String)) (k v k' : String)
    (h : ¬ k' = k) :
    headerLookup (fs.map (fun p => if p.1 == k then (k, v) else p)) k' =
      headerLookup fs k' := by
  induction fs with
  | nil => rfl
  | cons p ps ih =>
    rw [List.map_cons]
    by_cases hp : p.1 = k
    · rw [show (if (p.1 == k) = true then (k, v) else p) = (k, v) from by simp [hp]]
      rw [headerLookup_cons, headerLookup_cons]
      have h2 : ¬ ((k, v).1 == k') = true := by
        simp only [beq_iff_eq]
        exact fun hh => h hh.symm
      have h3 : ¬ (p.1 == k') = true := by
        simp only [beq_iff_eq, hp]
        exact fun hh => h hh.symm
      rw [if_neg h2, if_neg h3]
      exact ih
    · rw [show (if (p.1 == k) = true then (k, v) else p) = p from by simp [hp]]
      rw [headerLookup_cons, headerLookup_cons]
      by_cases hq : (p.1 == k') = true
      · rw [if_pos hq, if_pos hq]
      · rw [if_neg hq, if_neg hq]
        exact ih

theorem headerLookup_append_single (fs : List (String × String)) (k v k' : String)
    (h : ¬ k' = k) :
    headerLookup (fs ++ [(k, v)]) k' = headerLookup fs k' := by
  induction fs with
  | nil =>
    rw [List.nil_append, headerLookup_cons]
    have h2 : ¬ ((k, v).1 == k') = true := by
      simp only [beq_iff_eq]
      exact fun hh => h hh.symm
    rw [if_neg h2]
  | cons p ps ih =>
    rw [List.cons_append, headerLookup_cons, headerLookup_cons]
    by_cases hq : (p.1 == k') = true
    · rw [if_pos hq, if_pos hq]
    · rw [if_neg hq, if_neg hq]
      exact ih

theorem headerLookup_objSet_other (fs : List (String × String)) (k v k' : String)
    (h : ¬ k' = k) : headerLookup (objSet fs k v) k' = headerLookup fs k' := by
  unfold objSet
  split
  · exact headerLookup_map_set fs k v k' h
  · exact headerLookup_append_single fs k v k' h

/-! ## Claims -/

/-- Claim C9: The get-profile Credential Operation is claimed to issue
`GET /users/me` (and update-profile `PUT /users/me`), per the backend
contract table.  The code actually issues `POST /users/me` for get-profile:
`userAPI.getProfile` calls `apiRequest('/users/me')` with no options and
`apiRequest` defaults `method` to `'POST'`.  This theorem evaluates the code:
the endpoint is `/users/me` for both, update-profile does use `PUT`, but
get-profile uses `POST`, contradicting the contract table (a slip — a read
of `/users/me` named `getProfile` is clearly meant to be a GET). -/
theorem getProfile_uses_POST :
    ∀ (token : TokenSlot) (body : String),
      (getProfileRequest token).endpoint = "/users/me" ∧
      (getProfileRequest token).config.method = "POST" ∧
      (updateProfileRequest body token).endpoint = "/users/me" ∧
      (updateProfileRequest body token).config.method = "PUT" := by
  intro token body
  refine ⟨rfl, rfl, rfl, rfl⟩

/-- Counterexample to claim C8: From the `Sent` state, the "send to a different
email" action (`onClick={() => setIsSuccess(false)}`) drops the success flag
but does **not** clear the email field, contradicting the claim that it
returns to `Entering` with the email cleared. -/
theorem sendToDifferentEmail_keeps_email :
    recoverySendToDifferentEmail { email := "a@b.com", isLoading := false, isSuccess := true } =
      { email := "a@b.com", isLoading := false, isSuccess := false } ∧
    ¬ (recoverySendToDifferentEmail
        { email := "a@b.com", isLoading := false, isSuccess := true }).email = "" := by
  exact ⟨rfl, by decide⟩

/-- Claim C8 as amended: From `Sent`, the "send to a different email" action
returns to `Entering` with the email field retained (not cleared), and the
close action from any state resets the controller fully to `Entering`
(email cleared and success flag false) while invoking `onClose`. -/
theorem recovery_reset_behavior :
    ∀ s : RecoveryState,
      ((recoverySendToDifferentEmail s).isSuccess = false ∧
       (recoverySendToDifferentEmail s).email = s.email) ∧
      ((recoveryHandleClose s).1.email = "" ∧
       (recoveryHandleClose s).1.isSuccess = false ∧
       (recoveryHandleClose s).2 = true) := by
  intro s
  exact ⟨⟨rfl, rfl⟩, ⟨rfl, rfl, rfl⟩⟩

/-- Claim C5: A registration response whose body has `needsVerification: true`
routes to the OTP verification flow with the submitted email and never
stores a token (the `needsVerification` branch is checked before the token
branch, so a token field in the same response is ignored). -/
theorem register_needsVerification_routes_to_otp :
    ∀ (email : String) (response : JSVal),
      response.getField "needsVerification" = .vbool true →
      handleRegister email (.success response) =
        { RegisterResult.noEffects with
          otpOpened := true, pendingEmail := some email, accountCreatedToast := true } := by
  intro email response h
  simp [handleRegister, h, JSVal.truthy]

/-- Witness for claim C5: a concrete registration response that carries both
`needsVerification: true` and a token; the token is not stored and the OTP
flow opens with the submitted email. -/
theorem register_needsVerification_witness :
    handleRegister "user@example.com"
        (.success (.vobj [("needsVerification", .vbool true), ("token", .vstr "tok")])) =
      { RegisterResult.noEffects with
        otpOpened := true, pendingEmail := some "user@example.com"
        accountCreatedToast := true } :=
  register_needsVerification_routes_to_otp "user@example.com"
    (.vobj [("needsVerification", .vbool true), ("token", .vstr "tok")]) rfl

theorem loginCatch_noToken (email : String) :
    loginCatch email (.jsError "Error" "No authentication token received") =
      { LoginResult.noEffects with failToast := some "No authentication token received" } := by
  rfl

/-- Counterexample to claim C6: The claim promises the fixed message
"No authentication token received" for *every* 2xx login response lacking a
token.  A 2xx response whose JSON body is `null` lacks a token, but the
destructuring `const { token, ...user } = response` throws a `TypeError`
first, so the surfaced failure message is the TypeError's message instead.
(The outcome is still a non-crashing failure: nothing stored, no callback,
modal open.) -/
theorem login_null_body_message :
    handleLogin "a@b.com" (.success .vnull) =
      { LoginResult.noEffects with
        failToast := some "Cannot destructure property 'token' of 'response' as it is null." } ∧
    ¬ (handleLogin "a@b.com" (.success .vnull)).failToast =
        some "No authentication token received" := by
  exact ⟨rfl, by decide⟩

/-- Claim C6 as amended: For every non-`null` login response body lacking a
`token` field, even with HTTP status in [200,299], the login orchestration
treats the outcome as a failure with message "No authentication token
received" (not a crash): no token is written to the Session Store, the
success callback is not invoked, and the modal does not close.  (For a
`null` body the outcome is the same failure shape but the message is the
destructuring TypeError's message.) -/
theorem login_missing_token_fails :
    ∀ (email : String) (response : JSVal),
      ¬ response = .vnull → ¬ response = .vundefined →
      response.getField "token" = .vundefined →
      handleLogin email (.success response) =
        { LoginResult.noEffects with failToast := some "No authentication token received" } := by
  intro email response h1 h2 h3
  cases response with
  | vnull => exact absurd rfl h1
  | vundefined => exact absurd rfl h2
  | vbool b => exact loginCatch_noToken email
  | vnum n => exact loginCatch_noToken email
  | vstr s => exact loginCatch_noToken email
  | vobj fs =>
    have hred : handleLogin email (.success (.vobj fs)) =
        (if ((JSVal.vobj fs).getField "token").truthy = true then
          { LoginResult.noEffects with
            tokenStored := some ((JSVal.vobj fs).getField "token").jsToString
            loginSuccessCalled := true, welcomeToast := true, modalClosed := true }
        else loginCatch email (.jsError "Error" "No authentication token received")) := rfl
    rw [hred, h3]
    exact loginCatch_noToken email

/-- Witness for claim C6: a concrete 2xx body with user data but no token. -/
theorem login_missing_token_witness :
    handleLogin "a@b.com" (.success (.vobj [("user", .vstr "u")])) =
      { LoginResult.noEffects with failToast := some "No authentication token received" } :=
  login_missing_token_fails "a@b.com" (.vobj [("user", .vstr "u")])
    (by intro h; cases h) (by intro h; cases h) rfl

/-- Counterexample to claim C7: The claim says caller-supplied headers are merged
in "without removing Content-Type/Accept unless the caller explicitly
overrides them".  Because `...options` is spread *after* the `headers:` entry
of the config literal, a caller-supplied `headers` object replaces the merged
headers wholesale: `{headers: {"X-Custom": "a"}}` yields a config with no
`Content-Type` (and no `Accept`) even though the caller overrode neither. -/
theorem caller_headers_replace_defaults :
    headerLookup (buildConfig { headers := some [("X-Custom", "a")] } none).headers
        "Content-Type" = none ∧
    headerLookup (buildConfig { headers := some [("X-Custom", "a")] } none).headers
        "Accept" = none ∧
    headerLookup (buildConfig { headers := some [("X-Custom", "a")] } none).headers
        "X-Custom" = some "a" := by
  exact ⟨rfl, rfl, rfl⟩

/-- Claim C7 as amended: When the caller supplies no `headers` object, the
built request carries `Content-Type: application/json` and
`Accept: application/json`; when the caller supplies one, it replaces the
defaults wholesale (the two are removed unless the caller re-supplies them)
while all caller entries other than `Authorization` survive.  An
`Authorization: Bearer <token>` header is attached whenever the Session
Store holds a non-empty token, and is absent when no token is held and the
caller supplied no headers. -/
theorem transport_request_headers :
    ∀ (opts : RequestOptions) (token : TokenSlot),
      (opts.headers = none →
        headerLookup (buildConfig opts token).headers "Content-Type" =
          some "application/json" ∧
        headerLookup (buildConfig opts token).headers "Accept" =
          some "application/json") ∧
      (∀ hs, opts.headers = some hs →
        (headerLookup hs "Content-Type" = none →
          headerLookup (buildConfig opts token).headers "Content-Type" = none) ∧
        (headerLookup hs "Accept" = none →
          headerLookup (buildConfig opts token).headers "Accept" = none) ∧
        (∀ k v, ¬ k = "Authorization" → headerLookup hs k = some v →
          headerLookup (buildConfig opts token).headers k = some v)) ∧
      (∀ t, token = some t → ¬ t = "" →
        headerLookup (buildConfig opts token).headers "Authorization" =
          some ("Bearer " ++ t)) ∧
      ((token = none ∨ token = some "") → opts.headers = none →
        headerLookup (buildConfig opts token).headers "Authorization" = none) := by
  intro opts token
  obtain ⟨m, oh, b⟩ := opts
  refine ⟨?_, ?_, ?_, ?_⟩
  · intro h
    cases oh with
    | some hs => exact absurd h (by simp)
    | none =>
      cases token with
      | none => exact ⟨rfl, rfl⟩
      | some t =>
        by_cases ht : t = ""
        · subst ht; exact ⟨rfl, rfl⟩
        · have heq : (buildConfig ⟨m, none, b⟩ (some t)).headers =
              objSet [("Content-Type", "application/json"), ("Accept", "application/json")]
                "Authorization" ("Bearer " ++ t) := by
            rw [show (buildConfig ⟨m, none, b⟩ (some t)).headers =
              (if (t == "") = true then
                [("Content-Type", "application/json"), ("Accept", "application/json")]
              else objSet
                [("Content-Type", "application/json"), ("Accept", "application/json")]
                "Authorization" ("Bearer " ++ t)) from rfl]
            rw [if_neg (by simp [ht])]
          rw [heq]
          exact ⟨rfl, rfl⟩
  · intro hs h
    cases oh with
    | none => exact absurd h (by simp)
    | some hs' =>
      have hss : hs' = hs := by injection h
      subst hss
      cases token with
      | none => exact ⟨fun h2 => h2, fun h2 => h2, fun k v _ hv => hv⟩
      | some t =>
        by_cases ht : t = ""
        · subst ht
          exact ⟨fun h2 => h2, fun h2 => h2, fun k v _ hv => hv⟩
        · have heq : (buildConfig ⟨m, some hs', b⟩ (some t)).headers =
              objSet hs' "Authorization" ("Bearer " ++ t) := by
            rw [show (buildConfig ⟨m, some hs', b⟩ (some t)).headers =
              (if (t == "") = true then hs'
               else objSet hs' "Authorization" ("Bearer " ++ t)) from rfl]
            rw [if_neg (by simp [ht])]
          refine ⟨?_, ?_, ?_⟩
          · intro h2
            rw [heq, headerLookup_objSet_other _ _ _ _ (by decide)]
            exact h2
          · intro h2
            rw [heq, headerLookup_objSet_other _ _ _ _ (by decide)]
            exact h2
          · intro k v hk hv
            rw [heq, headerLookup_objSet_other _ _ _ _ hk]
            exact hv
  · intro t ht hne
    subst ht
    cases oh with
    | none =>
      have heq : (buildConfig ⟨m, none, b⟩ (some t)).headers =
          objSet [("Content-Type", "application/json"), ("Accept", "application/json")]
            "Authorization" ("Bearer " ++ t) := by
        rw [show (buildConfig ⟨m, none, b⟩ (some t)).headers =
          (if (t == "") = true then
            [("Content-Type", "application/json"), ("Accept", "application/json")]
          else objSet
            [("Content-Type", "application/json"), ("Accept", "application/json")]
            "Authorization" ("Bearer " ++ t)) from rfl]
        rw [if_neg (by simp [hne])]
      rw [heq]
      exact headerLookup_objSet_self _ _ _
    | some hs' =>
      have heq : (buildConfig ⟨m, some hs', b⟩ (some t)).headers =
          objSet hs' "Authorization" ("Bearer " ++ t) := by
        rw [show (buildConfig ⟨m, some hs', b⟩ (some t)).headers =
          (if (t == "") = true then hs'
           else objSet hs' "Authorization" ("Bearer " ++ t)) from rfl]
        rw [if_neg (by simp [hne])]
      rw [heq]
      exact headerLookup_objSet_self _ _ _
  · intro hor hnone
    cases oh with
    | some hs' => exact absurd hnone (by simp)
    | none =>
      cases hor with
      | inl h0 => subst h0; rfl
      | inr h0 => subst h0; rfl

/-- Witness for claim C7: concrete instances of the amended behavior — default
request (no caller headers, token `"tk"`) carries both JSON headers and the
bearer header; a caller-supplied headers object with no token survives
unchanged. -/
theorem transport_request_headers_witness :
    (headerLookup (buildConfig {} (some "tk")).headers "Content-Type" =
        some "application/json" ∧
     headerLookup (buildConfig {} (some "tk")).headers "Authorization" =
        some "Bearer tk") ∧
    headerLookup (buildConfig { headers := some [("X-Custom", "a")] } none).headers
        "X-Custom" = some "a" :=
  ⟨⟨((transport_request_headers {} (some "tk")).1 rfl).1,
    (transport_request_headers {} (some "tk")).2.2.1 "tk" rfl (by decide)⟩,
   ((transport_request_headers { headers := some [("X-Custom", "a")] } none).2.1
      [("X-Custom", "a")] rfl).2.2 "X-Custom" "a" (by decide) rfl⟩

/-- The claim's message rule, stated from the spec's words: the body's
`error` field if present (truthy), else the raw text body if the body is a
string, else the generic "Request failed". -/
def specErrorMessage (data : JSVal) : String :=
  if (data.getField "error").truthy then (data.getField "error").jsToString
  else
    match data with
    | .vstr s => s
    | _ => "Request failed"

/-- The claim's details rule, stated from the spec's words: the body's
`details` field if present (truthy), else the whole body. -/
def specErrorDetails (data : JSVal) : JSVal :=
  if (data.getField "details").truthy then data.getField "details" else data

/-- Counterexample to claim C1: The claim promises, for *every* response with
status outside [200,299], a NormalizedError whose `statusCode` equals the
HTTP status.  For a 404 whose JSON body is `null`, the unguarded
`data.details` read throws a `TypeError`, which the outer catch converts to
`APIError('Network error', 0, ...)`: `statusCode` is 0, not 404, and the
message is "Network error" rather than the claim's "Request failed". -/
theorem apiRequest_null_body_status_zero :
    apiRequest none (.response 404 (.jsonBody .vnull)) =
      .failure ⟨"Network error", 0,
        .vstr "Cannot read properties of null (reading 'details')"⟩ ∧
    ¬ apiRequest none (.response 404 (.jsonBody .vnull)) =
        .failure ⟨"Request failed", 404, .vnull⟩ := by
  refine ⟨rfl, ?_⟩
  intro h
  rw [show apiRequest none (.response 404 (.jsonBody .vnull)) =
    .failure ⟨"Network error", 0,
      .vstr "Cannot read properties of null (reading 'details')"⟩ from rfl] at h
  injection h with h1
  exact absurd (congrArg APIError.status h1) (by decide)

/-- Claim C1 as amended: A response with status in [200,299] resolves with the
parsed body.  A response with status outside [200,299] whose body is not
JSON `null` fails with a NormalizedError whose `statusCode` is the HTTP
status, whose message is the body's `error` field if present else the raw
text body if the body is text else "Request failed", and whose `details` is
the body's `details` field if present else the whole body.  When the body
is JSON `null`, the `data.details` read throws and the failure instead has
`statusCode` 0 and message "Network error".  (A parsed JSON body is never
`undefined`, so that case is excluded by hypothesis.) -/
theorem transport_outcome_classification :
    ∀ (token : TokenSlot) (status : Nat) (body : FetchBody),
      (okStatus status = true →
        apiRequest token (.response status body) = .success (respData body)) ∧
      (okStatus status = false → ¬ respData body = .vnull →
        ¬ respData body = .vundefined →
        apiRequest token (.response status body) =
          .failure ⟨specErrorMessage (respData body), status,
            specErrorDetails (respData body)⟩) ∧
      (okStatus status = false → respData body = .vnull →
        apiRequest token (.response status body) =
          .failure ⟨"Network error", 0,
            .vstr "Cannot read properties of null (reading 'details')"⟩) := by
  intro token status body
  refine ⟨?_, ?_, ?_⟩
  · intro h
    simp [apiRequest, h]
  · intro h hnull hundef
    cases body with
    | textBody s =>
      by_cases hs : s = "" <;>
        simp [apiRequest, h, respData, JSVal.member, JSVal.jsAnd, JSVal.jsOr,
          JSVal.truthy, JSVal.getField, JSVal.jsToString, specErrorMessage,
          specErrorDetails, hs]
    | jsonBody v =>
      cases v with
      | vnull => exact absurd rfl hnull
      | vundefined => exact absurd rfl hundef
      | vbool bb =>
        cases bb <;>
          simp [apiRequest, h, respData, JSVal.member, JSVal.jsAnd, JSVal.jsOr,
            JSVal.truthy, JSVal.getField, JSVal.jsToString, specErrorMessage,
            specErrorDetails]
      | vnum n =>
        by_cases hn : n = 0 <;>
          simp [apiRequest, h, respData, JSVal.member, JSVal.jsAnd, JSVal.jsOr,
            JSVal.truthy, JSVal.getField, JSVal.jsToString, specErrorMessage,
            specErrorDetails, hn]
      | vstr s =>
        by_cases hs : s = "" <;>
          simp [apiRequest, h, respData, JSVal.member, JSVal.jsAnd, JSVal.jsOr,
            JSVal.truthy, JSVal.getField, JSVal.jsToString, specErrorMessage,
            specErrorDetails, hs]
      | vobj fs =>
        have ht : (JSVal.vobj fs).truthy = true := rfl
        by_cases he : ((JSVal.vobj fs).getField "error").truthy = true <;>
          simp [apiRequest, h, respData, JSVal.member, JSVal.jsAnd, JSVal.jsOr,
            JSVal.jsToString, specErrorMessage, specErrorDetails, ht, he]
  · intro h hnull
    cases body with
    | textBody s => exact absurd hnull (by simp [respData])
    | jsonBody v =>
      have hv : v = .vnull := hnull
      subst hv
      simp [apiRequest, h, respData, JSVal.member]

/-- Witness for claim C1: a 2xx success, a 404 with an `error`/`details`-carrying
object body, and a 404 with a `null` body, all concrete. -/
theorem transport_outcome_classification_witness :
    apiRequest none (.response 200 (.jsonBody (.vobj [("ok", .vbool true)]))) =
      .success (.vobj [("ok", .vbool true)]) ∧
    apiRequest none (.response 404
        (.jsonBody (.vobj [("error", .vstr "bad"), ("details", .vstr "d")]))) =
      .failure ⟨"bad", 404, .vstr "d"⟩ ∧
    apiRequest none (.response 503 (.jsonBody .vnull)) =
      .failure ⟨"Network error", 0,
        .vstr "Cannot read properties of null (reading 'details')"⟩ := by
  refine ⟨?_, ?_, ?_⟩
  · exact (transport_outcome_classification none 200
      (.jsonBody (.vobj [("ok", .vbool true)]))).1 rfl
  · have h := (transport_outcome_classification none 404
      (.jsonBody (.vobj [("error", .vstr "bad"), ("details", .vstr "d")]))).2.1
      rfl (by intro hh; cases hh) (by intro hh; cases hh)
    rw [h]
    rfl
  · exact (transport_outcome_classification none 503 (.jsonBody .vnull)).2.2 rfl rfl

theorem mk_length (l : List Char) : (String.mk l).length = l.length := rfl

theorem mk_toList (l : List Char) : (String.mk l).toList = l := rfl

theorem handleOtpChange_fst (v : String) :
    (handleOtpChange v).1 = String.mk ((v.toList.filter Char.isDigit).take 6) := by
  show slice6 (String.mk (replaceNonDigits v.toList)) = _
  rw [replaceNonDigits_eq_filter]
  rfl

theorem handlePaste_digits (clip otp : String)
    (h : clip.toList.any Char.isDigit = true) :
    handlePaste clip otp =
      (String.mk ((clip.toList.filter Char.isDigit).take 6),
       if ((clip.toList.filter Char.isDigit).take 6).length == 6 then 1 else 0) := by
  unfold handlePaste
  rw [show slice6 (String.mk (replaceNonDigits clip.toList)) =
      String.mk ((clip.toList.filter Char.isDigit).take 6) from by
    rw [replaceNonDigits_eq_filter]; rfl]
  have hne : clip.toList.filter Char.isDigit ≠ [] := by
    intro hnil
    rw [List.filter_eq_nil_iff] at hnil
    rw [List.any_eq_true] at h
    obtain ⟨a, ha, hd⟩ := h
    exact hnil a ha hd
  have htake : (clip.toList.filter Char.isDigit).take 6 ≠ [] := by
    intro hnil
    rcases List.take_eq_nil_iff.mp hnil with h6 | hh
    · exact absurd h6 (by decide)
    · exact hne hh
  have hmk : (String.mk ((clip.toList.filter Char.isDigit).take 6) != "") = true := by
    simp only [bne_iff_ne, ne_eq]
    intro hh
    exact htake (congrArg String.data hh)
  rw [if_pos hmk]
  rfl

theorem handlePaste_no_digits (clip otp : String)
    (h : clip.toList.any Char.isDigit = false) :
    handlePaste clip otp = (otp, 0) := by
  unfold handlePaste
  have hnil : clip.toList.filter Char.isDigit = [] := by
    rw [List.filter_eq_nil_iff]
    intro a ha hd
    exact absurd (List.any_eq_true.mpr ⟨a, ha, hd⟩) (by rw [h]; exact Bool.false_ne_true)
  rw [show slice6 (String.mk (replaceNonDigits clip.toList)) =
      String.mk ((clip.toList.filter Char.isDigit).take 6) from by
    rw [replaceNonDigits_eq_filter]; rfl]
  rw [hnil]
  rfl

/-- Claim C3: Per input event: the stored code never exceeds 6 characters; a
change event triggers exactly one auto-submit iff the stored value has
exactly 6 digits, and never more than one; a paste triggers exactly one
auto-submit iff it stores a 6-digit code (which requires the clipboard to
contain a digit), and never more than one; and a keystroke arriving while
the field already holds 6 characters is blocked by `maxLength={6}` — the
value is unchanged and no additional verification attempt fires. -/
theorem otp_auto_submit :
    ∀ (v clip otp : String) (c : Char),
      ((handleOtpChange v).1.length ≤ 6 ∧
       ((handleOtpChange v).2 = 1 ↔ (handleOtpChange v).1.length = 6) ∧
       (handleOtpChange v).2 ≤ 1) ∧
      (((handlePaste clip otp).2 = 1 ↔
         ((handlePaste clip otp).1.length = 6 ∧ clip.toList.any Char.isDigit = true)) ∧
       (handlePaste clip otp).2 ≤ 1) ∧
      (otp.length = 6 → typeChar otp c = (otp, 0)) := by
  intro v clip otp c
  have hpair : handleOtpChange v =
      (String.mk ((v.toList.filter Char.isDigit).take 6),
       if (String.mk ((v.toList.filter Char.isDigit).take 6)).length == 6 then 1
       else 0) := by
    unfold handleOtpChange
    rw [show slice6 (String.mk (replaceNonDigits v.toList)) =
        String.mk ((v.toList.filter Char.isDigit).take 6) from by
      rw [replaceNonDigits_eq_filter]; rfl]
  refine ⟨⟨?_, ?_, ?_⟩, ⟨?_, ?_⟩, ?_⟩
  · rw [hpair, mk_length, List.length_take]
    exact min_le_left _ _
  · rw [hpair]
    by_cases hl : (String.mk ((v.toList.filter Char.isDigit).take 6)).length = 6 <;>
      simp [hl]
  · rw [hpair]
    split
    · exact Nat.le_refl 1
    · exact Nat.zero_le 1
  · cases hd : clip.toList.any Char.isDigit with
    | true =>
      rw [handlePaste_digits clip otp hd]
      by_cases hl : (String.mk ((clip.toList.filter Char.isDigit).take 6)).length = 6 <;>
        simp [mk_length] at hl <;> simp [hl, mk_length]
    | false =>
      rw [handlePaste_no_digits clip otp hd]
      simp
  · cases hd : clip.toList.any Char.isDigit with
    | true =>
      rw [handlePaste_digits clip otp hd]
      split
      · exact Nat.le_refl 1
      · exact Nat.zero_le 1
    | false =>
      rw [handlePaste_no_digits clip otp hd]
      exact Nat.zero_le 1
  · intro h6
    unfold typeChar
    rw [if_pos (by omega)]

/-- Witness for claim C3: typing up to "123456" auto-submits once; pasting
"987654" auto-submits once; a 7th keystroke on a full code is a no-op. -/
theorem otp_auto_submit_witness :
    (handleOtpChange "123456").2 = 1 ∧
    (handlePaste "987654" "").2 = 1 ∧
    ("123456".length = 6 ∧ typeChar "123456" '7' = ("123456", 0)) := by
  refine ⟨?_, ?_, ⟨rfl, ?_⟩⟩
  · exact ((otp_auto_submit "123456" "987654" "123456" '7').1.2.1).mpr (by decide)
  · exact ((otp_auto_submit "123456" "987654" "123456" '7').2.1.1).mpr
      ⟨by decide, by decide⟩
  · exact (otp_auto_submit "123456" "987654" "123456" '7').2.2 rfl

/-- Counterexample to claim C4: The claim says every input string fed to the
accumulator (keystroke or paste) leaves the code equal to the input's
digits truncated to 6.  Pasting `"xyz"` over the code `"12"` would then
clear the code (its input has no digits), but `handlePaste` guards with
`if (pastedData)` and leaves the old code `"12"` in place. -/
theorem paste_without_digits_keeps_code :
    (handlePaste "xyz" "12").1 = "12" ∧
    ¬ (handlePaste "xyz" "12").1 =
        String.mk (("xyz".toList.filter Char.isDigit).take 6) := by
  exact ⟨rfl, by decide⟩

/-- Claim C4 as amended: A change event stores exactly the digit characters of
the input in order, truncated to 6 (non-digits silently dropped); a paste
whose clipboard text contains at least one digit does the same; a paste
whose clipboard text contains no digits leaves the code unchanged (instead
of clearing it); feeding "12a3bc45" yields "12345". -/
theorem otp_code_accumulator :
    ∀ (v clip otp : String),
      (handleOtpChange v).1 = String.mk ((v.toList.filter Char.isDigit).take 6) ∧
      (clip.toList.any Char.isDigit = true →
        (handlePaste clip otp).1 =
          String.mk ((clip.toList.filter Char.isDigit).take 6)) ∧
      (clip.toList.any Char.isDigit = false → (handlePaste clip otp).1 = otp) ∧
      (handleOtpChange "12a3bc45").1 = "12345" := by
  intro v clip otp
  refine ⟨handleOtpChange_fst v, ?_, ?_, by decide⟩
  · intro h
    rw [handlePaste_digits clip otp h]
  · intro h
    rw [handlePaste_no_digits clip otp h]

/-- Witness for claim C4: a digit-bearing paste is filtered and truncated; a
digit-free paste keeps the previous code. -/
theorem otp_code_accumulator_witness :
    ("12a3bc456789".toList.any Char.isDigit = true ∧
     (handlePaste "12a3bc456789" "").1 = "123456") ∧
    ("xyz".toList.any Char.isDigit = false ∧ (handlePaste "xyz" "99").1 = "99") := by
  refine ⟨⟨by decide, ?_⟩, ⟨by decide, ?_⟩⟩
  · rw [(otp_code_accumulator "" "12a3bc456789" "").2.1 (by decide)]
    decide
  · exact (otp_code_accumulator "" "xyz" "99").2.2.1 (by decide)

/-- Claim C10: A verify-email or resend-otp call that returns HTTP 2xx with a
body whose `success` and `message` fields are both non-truthy is treated as
a failure: verification does not complete (no success callback, the modal
stays open) and an error is surfaced; the resend path arms no cooldown
(`timeLeft` stays 0, the timer ref is untouched) and surfaces an error. -/
theorem success_body_without_marker_fails :
    ∀ (token : TokenSlot) (status : Nat) (body : FetchBody) (s : OTPState),
      okStatus status = true →
      ((respData body).getField "success").truthy = false →
      ((respData body).getField "message").truthy = false →
      (s.otp.length = 6 → s.otp.toList.all Char.isDigit = true →
        (handleVerify s (apiRequest token (.response status body))).2.successCallback
            = false ∧
        (handleVerify s (apiRequest token (.response status body))).2.modalClosed
            = false ∧
        (handleVerify s (apiRequest token (.response status body))).2.errorToast =
          some "Verification failed. Please try again.") ∧
      (s.isResending = false → s.timeLeft = 0 →
        (handleResendOTP s (apiRequest token (.response status body))).1.timeLeft
            = 0 ∧
        (handleResendOTP s (apiRequest token (.response status body))).1.countdownArmed
            = s.countdownArmed ∧
        (handleResendOTP s (apiRequest token (.response status body))).2.errorToast =
          some "Failed to resend OTP") := by
  intro token status body s hok hsuc hmsg
  have hresp : apiRequest token (.response status body) = .success (respData body) := by
    simp [apiRequest, hok]
  rw [hresp]
  constructor
  · intro h6 hall
    have hall' : ∀ x ∈ s.otp.data, x.isDigit = true := by
      simpa using hall
    have hnex : ¬ ∃ x ∈ s.otp.data, x.isDigit = false := by
      rintro ⟨x, hx, hfalse⟩
      rw [hall' x hx] at hfalse
      cases hfalse
    simp [handleVerify, hsuc, hmsg, h6, hnex]
  · intro hr ht
    simp [handleResendOTP, hsuc, hmsg, hr, ht]

/-- Witness for claim C10: a 200 response whose body `{ok: true}` has neither a
`success` nor a `message` field, against a ready controller state. -/
theorem success_body_without_marker_witness :
    (handleVerify { initialOTPState with otp := "123456" }
        (apiRequest none (.response 200
          (.jsonBody (.vobj [("ok", .vbool true)]))))).2.successCallback = false ∧
    (handleResendOTP { initialOTPState with otp := "123456" }
        (apiRequest none (.response 200
          (.jsonBody (.vobj [("ok", .vbool true)]))))).1.timeLeft = 0 := by
  constructor
  · exact (((success_body_without_marker_fails none 200
      (.jsonBody (.vobj [("ok", .vbool true)]))
      { initialOTPState with otp := "123456" }) rfl rfl rfl).1 rfl rfl).1
  · exact (((success_body_without_marker_fails none 200
      (.jsonBody (.vobj [("ok", .vbool true)]))
      { initialOTPState with otp := "123456" }) rfl rfl rfl).2 rfl rfl).1

/-- At most one interval may be live per controller instance; the code keeps
`countdownRef` pointing at the one live interval. -/
def timerInvariant (s : OTPState) : Prop :=
  s.liveIntervals = if s.countdownArmed then 1 else 0

theorem timerInvariant_le_one (s : OTPState) (h : timerInvariant s) :
    s.liveIntervals ≤ 1 := by
  simp only [timerInvariant] at h
  rw [h]
  split
  · exact Nat.le_refl 1
  · exact Nat.zero_le 1

theorem timerInvariant_handleResendOTP (s : OTPState) (resp : APIOutcome)
    (hinv : timerInvariant s) : timerInvariant (handleResendOTP s resp).1 := by
  simp only [timerInvariant] at hinv ⊢
  by_cases hg : (s.isResending || decide (0 < s.timeLeft)) = true
  · simp [handleResendOTP, hg, hinv]
  · have hg' : (s.isResending || decide (0 < s.timeLeft)) = false := by
      simpa using hg
    cases resp with
    | failure e => simp [handleResendOTP, hg', hinv]
    | success data =>
      by_cases hm : (((data.getField "success").truthy ||
          (data.getField "message").truthy) = true)
      · by_cases ha : s.countdownArmed = true <;>
          simp [handleResendOTP, hg', hm, ha, hinv]
      · have hm' : (((data.getField "success").truthy ||
            (data.getField "message").truthy) = false) := by simpa using hm
        simp [handleResendOTP, hg', hm', hinv]

theorem timerInvariant_countdownTick (s : OTPState)
    (hinv : timerInvariant s) : timerInvariant (countdownTick s) := by
  simp only [timerInvariant] at hinv ⊢
  by_cases h1 : s.timeLeft ≤ 1
  · by_cases ha : s.countdownArmed = true <;>
      simp [countdownTick, h1, ha, hinv]
  · simp [countdownTick, h1, hinv]

/-- Claim C2: The resend sub-state machine: (initially no timer is live;) a
resend requested while `isResending` is true or the countdown is positive is
a no-op with no network call; a resend whose response carries a truthy
`success`/`message` marker arms the cooldown at 60 with the countdown
running, first cancelling any prior interval (one live interval results);
each interval firing decrements a positive countdown by exactly 1 and
leaves an exhausted countdown at 0; and both operations preserve the
at-most-one-live-timer invariant. -/
theorem resend_cooldown_state_machine :
    ∀ (s : OTPState) (resp : APIOutcome),
      timerInvariant initialOTPState ∧
      ((s.isResending = true ∨ 0 < s.timeLeft) →
        handleResendOTP s resp =
          (s, { networkCalled := false, successToast := false, errorToast := none })) ∧
      (s.isResending = false → s.timeLeft = 0 →
        ∀ data : JSVal,
          ((data.getField "success").truthy || (data.getField "message").truthy)
              = true →
          (handleResendOTP s (.success data)).1.timeLeft = 60 ∧
          (handleResendOTP s (.success data)).1.countdownArmed = true ∧
          (timerInvariant s →
            (handleResendOTP s (.success data)).1.liveIntervals = 1)) ∧
      (0 < s.timeLeft → (countdownTick s).timeLeft = s.timeLeft - 1) ∧
      (s.timeLeft = 0 → (countdownTick s).timeLeft = 0) ∧
      (timerInvariant s →
        timerInvariant (handleResendOTP s resp).1 ∧
        timerInvariant (countdownTick s) ∧
        (handleResendOTP s resp).1.liveIntervals ≤ 1 ∧
        (countdownTick s).liveIntervals ≤ 1) := by
  intro s resp
  refine ⟨rfl, ?_, ?_, ?_, ?_, ?_⟩
  · rintro (h | h) <;> simp [handleResendOTP, h]
  · intro hr ht data hm
    refine ⟨?_, ?_, ?_⟩
    · by_cases ha : s.countdownArmed = true <;>
        simp [handleResendOTP, hr, ht, hm, ha]
    · by_cases ha : s.countdownArmed = true <;>
        simp [handleResendOTP, hr, ht, hm, ha]
    · intro hinv
      simp only [timerInvariant] at hinv
      by_cases ha : s.countdownArmed = true <;>
        simp [handleResendOTP, hr, ht, hm, ha, hinv]
  · intro h
    by_cases h1 : s.timeLeft ≤ 1
    · have ht1 : s.timeLeft = 1 := by omega
      by_cases ha : s.countdownArmed = true <;> simp [countdownTick, h1, ha, ht1]
    · simp [countdownTick, h1]
  · intro h0
    by_cases ha : s.countdownArmed = true <;> simp [countdownTick, h0, ha]
  · intro hinv
    exact ⟨timerInvariant_handleResendOTP s resp hinv,
      timerInvariant_countdownTick s hinv,
      timerInvariant_le_one _ (timerInvariant_handleResendOTP s resp hinv),
      timerInvariant_le_one _ (timerInvariant_countdownTick s hinv)⟩

/-- Witness for claim C2: a resend during an active cooldown (5 s left) is a
no-op; a successful resend from the ready state arms the cooldown at 60
with exactly one live interval; one tick brings 60 to 59. -/
theorem resend_cooldown_witness :
    handleResendOTP { initialOTPState with timeLeft := 5 }
        (.success (.vobj [("success", .vbool true)])) =
      ({ initialOTPState with timeLeft := 5 },
       { networkCalled := false, successToast := false, errorToast := none }) ∧
    (handleResendOTP initialOTPState
        (.success (.vobj [("success", .vbool true)]))).1.timeLeft = 60 ∧
    (handleResendOTP initialOTPState
        (.success (.vobj [("success", .vbool true)]))).1.liveIntervals = 1 ∧
    (countdownTick { initialOTPState with
        timeLeft := 60, countdownArmed := true, liveIntervals := 1 }).timeLeft = 59 := by
  refine ⟨?_, ?_, ?_, ?_⟩
  · exact (resend_cooldown_state_machine
      { initialOTPState with timeLeft := 5 }
      (.success (.vobj [("success", .vbool true)]))).2.1 (Or.inr (by decide))
  · exact ((resend_cooldown_state_machine initialOTPState
      (.success (.vobj [("success", .vbool true)]))).2.2.1 rfl rfl
      (.vobj [("success", .vbool true)]) (by decide)).1
  · exact ((resend_cooldown_state_machine initialOTPState
      (.success (.vobj [("success", .vbool true)]))).2.2.1 rfl rfl
      (.vobj [("success", .vbool true)]) (by decide)).2.2 rfl
  · exact (resend_cooldown_state_machine
      { initialOTPState with timeLeft := 60, countdownArmed := true, liveIntervals := 1 }
      (.success (.vobj [("success", .vbool true)]))).2.2.2.1 (by decide)
